import Mathlib

/-!
Shallow embedding of `src/src/heap/concurrent-allocator.cc` (the concurrent
allocation subsystem of the V8 heap): the per-thread linear allocation buffer
(LAB), the slow-path LAB replenishment, allocation outside the LAB, the
bounded retry-through-collection protocol, and black-allocation coordination.

Addresses are modelled as `Nat` (`kNullAddress = 0`), the global black-marking
bookkeeping as a `Finset Nat` of marked addresses, and the side effects of an
operation (slice requests, park/unpark, collection waits, black-area
create/destroy, LAB closing, the fatal OOM abort) as an explicit event trace.
External collaborators (the shared space's slice provider, the incremental
marker's active flag, the outcome of each retried `Allocate` call) are inputs
to the embedded functions.
-/

namespace V8Embed

/-- Null address constant (`kNullAddress`); addresses are modelled as `Nat`. -/
def kNullAddress : Nat := 0

/-- Allocation alignment requests (`AllocationAlignment`). -/
inductive AllocationAlignment where
  | kWordAligned
  | kDoubleAligned
  | kDoubleUnaligned
deriving DecidableEq, Repr

/-- Allocation origin tags (`AllocationOrigin`), instrumentation only. -/
inductive AllocationOrigin where
  | kGeneratedCode
  | kRuntime
  | kGC
deriving DecidableEq, Repr

/-- Result of an allocation attempt (`AllocationResult`): an object address or
a retry signal. -/
inductive AllocationResult where
  | success (address : Nat)
  | retry
deriving DecidableEq, Repr

/-- Modelled from the spec: `LocalAllocationBuffer` (declared in headers not
under src/) is a thread-private contiguous free range `[top, limit)`; an empty
buffer has `top = limit = kNullAddress`. -/
structure LocalAllocationBuffer where
  top : Nat
  limit : Nat
deriving DecidableEq, Repr

/-- Modelled from the spec: a LAB is valid when it is non-empty (`top` is not
the null address) and `top <= limit`. -/
def labIsValid (lab : LocalAllocationBuffer) : Prop :=
  lab.top ≠ kNullAddress ∧ lab.top ≤ lab.limit

instance (lab : LocalAllocationBuffer) : Decidable (labIsValid lab) :=
  inferInstanceAs (Decidable (_ ∧ _))

/-- Free capacity of a LAB: the length of its `[top, limit)` range. -/
def labCapacity (lab : LocalAllocationBuffer) : Nat :=
  lab.limit - lab.top

/-- Modelled from the spec: `LocalAllocationBuffer::FromResult` (not under
src/) builds a LAB covering `[address, address + size)` from a granted
slice. -/
def labFromResult (address : Nat) (size : Nat) : LocalAllocationBuffer :=
  { top := address, limit := address + size }

/-- Observable side effects of the allocator, recorded as a trace. -/
inductive HeapEvent where
  | setAllocationFailed
  | clearAllocationFailed
  | park
  | waitForCollection
  | unpark
  | allocateAttempt (i : Nat)
  | fatalOOM
  | requestSlice (context : Nat) (minSize maxSize : Nat)
      (alignment : AllocationAlignment) (origin : AllocationOrigin)
  | createBlackArea (top limit : Nat)
  | destroyBlackArea (top limit : Nat)
  | markBlackObject (address : Nat) (size : Nat)
  | closeAndMakeIterable (top limit : Nat)
deriving DecidableEq, Repr

/-- Modelled from the spec: `Page::CreateBlackAreaBackground(top, limit)`
(external black-area bookkeeping) marks every address of `[top, limit)`
black. -/
def createBlackAreaBackground (top limit : Nat) (marked : Finset Nat) :
    Finset Nat :=
  marked ∪ Finset.Ico top limit

/-- Modelled from the spec: `Page::DestroyBlackAreaBackground(top, limit)`
(external black-area bookkeeping) unmarks every address of `[top, limit)`. -/
def destroyBlackAreaBackground (top limit : Nat) (marked : Finset Nat) :
    Finset Nat :=
  marked \ Finset.Ico top limit

/-- Modelled from the spec: `IncrementalMarking::MarkBlackBackground(object,
size)` (external) marks the object's range `[address, address + size)`
black. -/
def markBlackBackground (address : Nat) (size : Nat)
    (marked : Finset Nat) : Finset Nat :=
  marked ∪ Finset.Ico address (address + size)

/-- Embeds `ConcurrentAllocator::MarkLinearAllocationAreaBlack` (source lines
82-89): create a black area over the open LAB `[top, limit)` unless the LAB is
empty or `top = limit`. -/
def MarkLinearAllocationAreaBlack (lab : LocalAllocationBuffer)
    (marked : Finset Nat) : Finset Nat :=
  if lab.top ≠ kNullAddress ∧ lab.top ≠ lab.limit then
    createBlackAreaBackground lab.top lab.limit marked
  else marked

/-- Embeds `ConcurrentAllocator::UnmarkLinearAllocationArea` (source lines
91-99): destroy the black area over the open LAB `[top, limit)` unless the LAB
is empty or `top = limit`. -/
def UnmarkLinearAllocationArea (lab : LocalAllocationBuffer)
    (marked : Finset Nat) : Finset Nat :=
  if lab.top ≠ kNullAddress ∧ lab.top ≠ lab.limit then
    destroyBlackAreaBackground lab.top lab.limit marked
  else marked

/-- Modelled from the spec: minimum LAB capacity (`kLabSize`, declared in the
allocator's header, not under src/; the exact value does not affect the
claims). -/
def kLabSize : Nat := 4096

/-- Modelled from the spec: maximum LAB capacity (`kMaxLabSize`, declared in
the allocator's header, not under src/). -/
def kMaxLabSize : Nat := 32768

/-- Modelled from the spec: `LocalAllocationBuffer::TryMerge` (not under
src/) merges the previous LAB into the new one when the previous LAB's
trailing free range is address-contiguous with the new slice (the previous
limit equals the new top), producing a single LAB spanning both. -/
def tryMerge (newLab savedLab : LocalAllocationBuffer) :
    Option LocalAllocationBuffer :=
  if savedLab.limit = newLab.top then
    some { top := savedLab.top, limit := newLab.limit }
  else none

/-- Modelled from the spec: `LocalAllocationBuffer::CloseAndMakeIterable`
(not under src/) pads the unused tail `[top, limit)` into a well-formed
filler when the LAB is valid and non-degenerate; recorded as a trace event. -/
def closeAndMakeIterableEvents (lab : LocalAllocationBuffer) :
    List HeapEvent :=
  if lab.top ≠ kNullAddress ∧ lab.top ≠ lab.limit then
    [HeapEvent.closeAndMakeIterable lab.top lab.limit]
  else []

/-- State of a concurrent allocator together with the global black-marking
bookkeeping it updates. -/
structure AllocatorState where
  lab : LocalAllocationBuffer
  marked : Finset Nat
deriving DecidableEq

/-- Embeds `ConcurrentAllocator::EnsureLab` (source lines 113-134).
Inputs standing for external collaborators: `localHeap` is the owning thread
context handle (`local_heap_`), `blackAllocation` is the incremental marker's
black-allocation flag at the moment of the call, and `response` is the shared
space's answer to `SlowGetLinearAllocationAreaBackground` (a granted
`(address, size)` slice or `none`). Returns the boolean result, the new
allocator state, and the event trace in program order. -/
def EnsureLab (localHeap : Nat) (blackAllocation : Bool)
    (response : Option (Nat × Nat)) (origin : AllocationOrigin)
    (st : AllocatorState) : Bool × AllocatorState × List HeapEvent :=
  let reqEv := HeapEvent.requestSlice localHeap kLabSize kMaxLabSize
    AllocationAlignment.kWordAligned origin
  match response with
  | none => (false, st, [reqEv])
  | some (address, size) =>
    let markEvs := if blackAllocation then
      [HeapEvent.createBlackArea address (address + size)] else []
    let marked1 := if blackAllocation then
      createBlackAreaBackground address (address + size) st.marked
    else st.marked
    let savedLab := st.lab
    let newLab := labFromResult address size
    match tryMerge newLab savedLab with
    | some merged =>
      (true, { lab := merged, marked := marked1 }, reqEv :: markEvs)
    | none =>
      (true, { lab := newLab, marked := marked1 },
        reqEv :: markEvs ++ closeAndMakeIterableEvents savedLab)

/-- Modelled from the spec: tagged size of a word (`kTaggedSize`). -/
def kTaggedSize : Nat := 8

/-- Modelled from the spec: padding inserted before an object to satisfy the
requested alignment (word alignment needs none; double alignment rounds up to
a two-word boundary). -/
def alignmentPadding (top : Nat) (alignment : AllocationAlignment) : Nat :=
  match alignment with
  | AllocationAlignment.kWordAligned => 0
  | _ => (2 * kTaggedSize - top % (2 * kTaggedSize)) % (2 * kTaggedSize)

/-- Modelled from the spec: bump allocation inside the LAB
(`LocalAllocationBuffer::AllocateRawAligned`, not under src/): advance `top`
past alignment padding and the object, or fail without side effects. -/
def allocateRawAligned (lab : LocalAllocationBuffer) (objectSize : Nat)
    (alignment : AllocationAlignment) :
    AllocationResult × LocalAllocationBuffer :=
  if lab.top = kNullAddress then (AllocationResult.retry, lab)
  else
    let start := lab.top + alignmentPadding lab.top alignment
    if start + objectSize ≤ lab.limit then
      (AllocationResult.success start, { lab with top := start + objectSize })
    else (AllocationResult.retry, lab)

/-- Embeds `ConcurrentAllocator::AllocateInLabSlow` (source lines 101-111):
replenish the LAB via `EnsureLab` (converting failure into `Retry`), then bump
allocate in the fresh LAB. -/
def AllocateInLabSlow (localHeap : Nat) (blackAllocation : Bool)
    (response : Option (Nat × Nat)) (objectSize : Nat)
    (alignment : AllocationAlignment) (origin : AllocationOrigin)
    (st : AllocatorState) : AllocationResult × AllocatorState × List HeapEvent :=
  match EnsureLab localHeap blackAllocation response origin st with
  | (false, st1, evs) => (AllocationResult.retry, st1, evs)
  | (true, st1, evs) =>
    let out := allocateRawAligned st1.lab objectSize alignment
    (out.1, { st1 with lab := out.2 }, evs)

/-- Embeds `ConcurrentAllocator::AllocateOutsideLab` (source lines 136-150):
request a slice of exactly `objectSize` (min = max); on failure return
`Retry`; on success, mark the object's range black when black-allocation is
active, then return its address. -/
def AllocateOutsideLab (localHeap : Nat) (blackAllocation : Bool)
    (response : Option (Nat × Nat)) (objectSize : Nat)
    (alignment : AllocationAlignment) (origin : AllocationOrigin)
    (marked : Finset Nat) :
    AllocationResult × Finset Nat × List HeapEvent :=
  let reqEv := HeapEvent.requestSlice localHeap objectSize objectSize
    alignment origin
  match response with
  | none => (AllocationResult.retry, marked, [reqEv])
  | some (address, _size) =>
    if blackAllocation then
      (AllocationResult.success address,
        markBlackBackground address objectSize marked,
        [reqEv, HeapEvent.markBlackObject address objectSize])
    else (AllocationResult.success address, marked, [reqEv])

/-- Per-thread local heap state consumed by the retry protocol: the
allocation-failed flag (`local_heap_->allocation_failed_`). -/
structure LocalHeapState where
  allocationFailed : Bool
deriving DecidableEq, Repr

/-- Outcome of `PerformCollectionAndAllocateAgain`: an object address, or the
fatal out-of-memory process termination (`FatalProcessOutOfMemory`). -/
inductive AllocateOrFailResult where
  | address (a : Nat)
  | fatalOOM
deriving DecidableEq, Repr

/-- Events of one iteration of the retry loop (source lines 58-64): enter the
parked scope, wait for a collection, leave the parked scope, then attempt
`Allocate` (attempt number `i`). -/
def retryIterationEvents (i : Nat) : List HeapEvent :=
  [HeapEvent.park, HeapEvent.waitForCollection, HeapEvent.unpark,
    HeapEvent.allocateAttempt i]

/-- Loop body of `PerformCollectionAndAllocateAgain` (source lines 58-69),
as recursion on the remaining iteration count (`fuel`, 3 at entry, matching
`for (int i = 0; i < 3; i++)`). `attempts i` is the outcome of the retried
`Allocate` call of iteration `i` (an external input: the allocator's fast and
slow paths together). Falling off the loop reaches the fatal OOM call
(source line 71). -/
def pcaaLoop (attempts : Nat → AllocationResult) (st : LocalHeapState)
    (i : Nat) : Nat → AllocateOrFailResult × LocalHeapState × List HeapEvent
  | 0 => (AllocateOrFailResult.fatalOOM, st, [HeapEvent.fatalOOM])
  | fuel + 1 =>
    match attempts i with
    | AllocationResult.retry =>
      let rest := pcaaLoop attempts st (i + 1) fuel
      (rest.1, rest.2.1, retryIterationEvents i ++ rest.2.2)
    | AllocationResult.success a =>
      (AllocateOrFailResult.address a, { st with allocationFailed := false },
        retryIterationEvents i ++ [HeapEvent.clearAllocationFailed])

/-- Embeds `ConcurrentAllocator::PerformCollectionAndAllocateAgain` (source
lines 53-72): set the allocation-failed flag, run up to 3 iterations of
collect-then-allocate, clear the flag and return the address on the first
non-retry attempt, and otherwise terminate fatally. -/
def PerformCollectionAndAllocateAgain (attempts : Nat → AllocationResult)
    (st : LocalHeapState) :
    AllocateOrFailResult × LocalHeapState × List HeapEvent :=
  let st1 : LocalHeapState := { st with allocationFailed := true }
  let out := pcaaLoop attempts st1 0 3
  (out.1, out.2.1, HeapEvent.setAllocationFailed :: out.2.2)

/-- Checks the parked-scope discipline along a trace, carrying the current
parked nesting depth: every collection wait happens at depth exactly 1 (the
thread is parked for the wait), and every `Allocate` attempt happens at depth
0 (the thread is never parked while allocating). -/
def parkedDiscipline (d : Nat) : List HeapEvent → Bool
  | [] => true
  | HeapEvent.park :: rest => parkedDiscipline (d + 1) rest
  | HeapEvent.unpark :: rest => parkedDiscipline (d - 1) rest
  | HeapEvent.waitForCollection :: rest =>
    (d == 1) && parkedDiscipline d rest
  | HeapEvent.allocateAttempt _ :: rest =>
    (d == 0) && parkedDiscipline d rest
  | _ :: rest => parkedDiscipline d rest

/-- Checks that every collection wait in the trace is immediately preceded by
entering the parked scope, and immediately followed by leaving it before
anything else happens (the scoped acquire and release surround the wait). -/
def waitsAreScoped : List HeapEvent → Bool
  | HeapEvent.park :: HeapEvent.waitForCollection :: HeapEvent.unpark ::
      rest => waitsAreScoped rest
  | HeapEvent.waitForCollection :: _ => false
  | _ :: rest => waitsAreScoped rest
  | [] => true

/-- C8: `MarkLinearAllocationAreaBlack` and `UnmarkLinearAllocationArea` are
each a no-op when the LAB is empty (top is null) or when `top = limit`; and
whenever the LAB's `[top, limit)` range is unmarked, marking it black and then
unmarking it with no intervening allocation restores the original marking
state exactly. -/
theorem c8_mark_unmark_inverses (lab : LocalAllocationBuffer)
    (marked : Finset Nat) :
    ((lab.top = kNullAddress ∨ lab.top = lab.limit) →
      MarkLinearAllocationAreaBlack lab marked = marked ∧
      UnmarkLinearAllocationArea lab marked = marked) ∧
    ((∀ a ∈ Finset.Ico lab.top lab.limit, a ∉ marked) →
      UnmarkLinearAllocationArea lab (MarkLinearAllocationAreaBlack lab marked)
        = marked) := by
  constructor
  · intro h
    have hcond : ¬(lab.top ≠ kNullAddress ∧ lab.top ≠ lab.limit) := by
      rcases h with h | h <;> simp [h]
    simp [MarkLinearAllocationAreaBlack, UnmarkLinearAllocationArea, hcond]
  · intro h
    by_cases hcond : lab.top ≠ kNullAddress ∧ lab.top ≠ lab.limit
    · simp only [MarkLinearAllocationAreaBlack, UnmarkLinearAllocationArea,
        if_pos hcond, createBlackAreaBackground, destroyBlackAreaBackground]
      ext a
      simp only [Finset.mem_sdiff, Finset.mem_union]
      constructor
      · rintro ⟨ha | ha, hni⟩
        · exact ha
        · exact absurd ha hni
      · intro ha
        exact ⟨Or.inl ha, fun hic => h a hic ha⟩
    · simp [MarkLinearAllocationAreaBlack, UnmarkLinearAllocationArea, hcond]

/-- Witness for C8: at a concrete LAB `[100, 116)` and an initially unmarked
state, mark-then-unmark returns the original state. -/
theorem c8_witness :
    UnmarkLinearAllocationArea ⟨100, 116⟩
      (MarkLinearAllocationAreaBlack ⟨100, 116⟩ ({5} : Finset Nat))
      = ({5} : Finset Nat) :=
  (c8_mark_unmark_inverses ⟨100, 116⟩ {5}).2 (by decide)

/-- C1: when every retried `Allocate` attempt returns `Retry`,
`PerformCollectionAndAllocateAgain` performs the parked collection-wait
exactly 3 times (entering the parked scope exactly 3 times), never starts a
4th iteration, and terminates via the fatal out-of-memory failure — it never
returns a `Retry` value to its caller. -/
theorem c1_retry_bounded_then_fatal (attempts : Nat → AllocationResult)
    (st : LocalHeapState)
    (h : ∀ i, i < 3 → attempts i = AllocationResult.retry) :
    (PerformCollectionAndAllocateAgain attempts st).1 =
      AllocateOrFailResult.fatalOOM ∧
    (PerformCollectionAndAllocateAgain attempts st).2.2.count
      HeapEvent.waitForCollection = 3 ∧
    (PerformCollectionAndAllocateAgain attempts st).2.2.count
      HeapEvent.park = 3 ∧
    HeapEvent.allocateAttempt 3 ∉
      (PerformCollectionAndAllocateAgain attempts st).2.2 := by
  have h0 := h 0 (by omega)
  have h1 := h 1 (by omega)
  have h2 := h 2 (by omega)
  simp [PerformCollectionAndAllocateAgain, pcaaLoop, retryIterationEvents,
    h0, h1, h2]

/-- Witness for C1: the always-retry attempt sequence reaches the fatal OOM
after exactly 3 collection waits. -/
theorem c1_witness :
    (PerformCollectionAndAllocateAgain (fun _ => AllocationResult.retry)
      { allocationFailed := false }).1 = AllocateOrFailResult.fatalOOM ∧
    (PerformCollectionAndAllocateAgain (fun _ => AllocationResult.retry)
      { allocationFailed := false }).2.2.count
      HeapEvent.waitForCollection = 3 ∧
    (PerformCollectionAndAllocateAgain (fun _ => AllocationResult.retry)
      { allocationFailed := false }).2.2.count HeapEvent.park = 3 ∧
    HeapEvent.allocateAttempt 3 ∉
      (PerformCollectionAndAllocateAgain (fun _ => AllocationResult.retry)
        { allocationFailed := false }).2.2 :=
  c1_retry_bounded_then_fatal (fun _ => AllocationResult.retry)
    { allocationFailed := false } (fun _ _ => rfl)

/-- C2: `PerformCollectionAndAllocateAgain` sets the allocation-failed flag
first of all (before any collection attempt), and on the first retried
`Allocate` attempt that returns non-`Retry` it clears the flag and returns
that attempt's address. -/
theorem c2_allocation_failed_flag_protocol (attempts : Nat → AllocationResult)
    (st : LocalHeapState) (j : Nat) (a : Nat) (hj : j < 3)
    (hsucc : attempts j = AllocationResult.success a)
    (hbefore : ∀ i, i < j → attempts i = AllocationResult.retry) :
    (PerformCollectionAndAllocateAgain attempts st).2.2.head? =
      some HeapEvent.setAllocationFailed ∧
    (PerformCollectionAndAllocateAgain attempts st).1 =
      AllocateOrFailResult.address a ∧
    (PerformCollectionAndAllocateAgain attempts st).2.1.allocationFailed
      = false := by
  have hj3 : j = 0 ∨ j = 1 ∨ j = 2 := by omega
  rcases hj3 with rfl | rfl | rfl
  · simp [PerformCollectionAndAllocateAgain, pcaaLoop, retryIterationEvents,
      hsucc]
  · have h0 := hbefore 0 (by omega)
    simp [PerformCollectionAndAllocateAgain, pcaaLoop, retryIterationEvents,
      h0, hsucc]
  · have h0 := hbefore 0 (by omega)
    have h1 := hbefore 1 (by omega)
    simp [PerformCollectionAndAllocateAgain, pcaaLoop, retryIterationEvents,
      h0, h1, hsucc]

/-- Witness for C2: with the second attempt succeeding at address 64, the
operation returns 64 with the allocation-failed flag cleared. -/
theorem c2_witness :
    (PerformCollectionAndAllocateAgain
      (fun i => if i = 1 then AllocationResult.success 64
        else AllocationResult.retry) { allocationFailed := false }).2.2.head? =
      some HeapEvent.setAllocationFailed ∧
    (PerformCollectionAndAllocateAgain
      (fun i => if i = 1 then AllocationResult.success 64
        else AllocationResult.retry) { allocationFailed := false }).1 =
      AllocateOrFailResult.address 64 ∧
    (PerformCollectionAndAllocateAgain
      (fun i => if i = 1 then AllocationResult.success 64
        else AllocationResult.retry)
      { allocationFailed := false }).2.1.allocationFailed = false :=
  c2_allocation_failed_flag_protocol
    (fun i => if i = 1 then AllocationResult.success 64
      else AllocationResult.retry)
    { allocationFailed := false } 1 64 (by omega) rfl
    (fun i hi => by
      have : i = 0 := by omega
      subst this
      rfl)

/-- C9: along every trace of the retry-through-collection loop, each
collection wait happens at parked depth exactly 1 (the thread is marked
parked before the blocking wait and the wait happens only while parked), each
retried `Allocate` attempt happens at parked depth 0 (the parked state is
cleared on exit from the wait, before any allocation attempt), and each wait
is immediately surrounded by entering and leaving the parked scope. -/
theorem c9_parked_scope_discipline (attempts : Nat → AllocationResult)
    (st : LocalHeapState) :
    parkedDiscipline 0 (PerformCollectionAndAllocateAgain attempts st).2.2
      = true ∧
    waitsAreScoped (PerformCollectionAndAllocateAgain attempts st).2.2
      = true := by
  rcases h0 : attempts 0 with a0 | _
  · simp [PerformCollectionAndAllocateAgain, pcaaLoop, retryIterationEvents,
      h0, parkedDiscipline, waitsAreScoped]
  · rcases h1 : attempts 1 with a1 | _
    · simp [PerformCollectionAndAllocateAgain, pcaaLoop, retryIterationEvents,
        h0, h1, parkedDiscipline, waitsAreScoped]
    · rcases h2 : attempts 2 with a2 | _ <;>
        simp [PerformCollectionAndAllocateAgain, pcaaLoop,
          retryIterationEvents, h0, h1, h2, parkedDiscipline, waitsAreScoped]

/-- Witness for C9: the parked-scope discipline holds on the concrete
always-retry trace. -/
theorem c9_witness :
    parkedDiscipline 0 (PerformCollectionAndAllocateAgain
      (fun _ => AllocationResult.retry) { allocationFailed := false }).2.2
      = true :=
  (c9_parked_scope_discipline (fun _ => AllocationResult.retry)
    { allocationFailed := false }).1

/-- C3: when the shared space grants a slice `(address, size)` and
black-allocation is active, `EnsureLab` creates a black area over the whole
granted range `[address, address + size)` — not only the portion the
triggering request will consume — and this is reflected both in the final
marking state and in the trace, with the call succeeding. -/
theorem c3_black_area_covers_whole_slice (localHeap : Nat)
    (address size : Nat) (origin : AllocationOrigin) (st : AllocatorState) :
    (EnsureLab localHeap true (some (address, size)) origin st).1 = true ∧
    Finset.Ico address (address + size) ⊆
      (EnsureLab localHeap true (some (address, size)) origin st).2.1.marked ∧
    HeapEvent.createBlackArea address (address + size) ∈
      (EnsureLab localHeap true (some (address, size)) origin st).2.2 := by
  cases htm : tryMerge (labFromResult address size) st.lab <;>
    simp [EnsureLab, htm, createBlackAreaBackground]

/-- Witness for C3: the concrete slice `[100, 108)` is fully marked. -/
theorem c3_witness :
    Finset.Ico 100 108 ⊆
      (EnsureLab 7 true (some (100, 8)) AllocationOrigin.kRuntime
        ⟨⟨0, 0⟩, ∅⟩).2.1.marked :=
  (c3_black_area_covers_whole_slice 7 100 8 AllocationOrigin.kRuntime
    ⟨⟨0, 0⟩, ∅⟩).2.1

/-- C10: `EnsureLab`'s effect on the marking state is exactly to mark the
granted slice (when black-allocation is active) and nothing else: the final
marking state is the old one united with the slice's range (unchanged when
black-allocation is inactive), no black area is ever destroyed, and every
address outside the granted slice — in particular any address of the previous
LAB's range, which the space grants disjointly — keeps its previous marking
state, merge or no merge. -/
theorem c10_ensure_lab_marking_frame (localHeap : Nat)
    (blackAllocation : Bool) (address size : Nat)
    (origin : AllocationOrigin) (st : AllocatorState) :
    ((EnsureLab localHeap blackAllocation (some (address, size)) origin
        st).2.1.marked =
      if blackAllocation then
        st.marked ∪ Finset.Ico address (address + size)
      else st.marked) ∧
    (∀ t l, HeapEvent.destroyBlackArea t l ∉
      (EnsureLab localHeap blackAllocation (some (address, size)) origin
        st).2.2) ∧
    (∀ a, a ∉ Finset.Ico address (address + size) →
      ((a ∈ (EnsureLab localHeap blackAllocation (some (address, size))
          origin st).2.1.marked) ↔ a ∈ st.marked)) := by
  have hmarked : (EnsureLab localHeap blackAllocation (some (address, size))
      origin st).2.1.marked =
      if blackAllocation then
        st.marked ∪ Finset.Ico address (address + size)
      else st.marked := by
    cases blackAllocation <;>
      cases htm : tryMerge (labFromResult address size) st.lab <;>
        simp [EnsureLab, htm, createBlackAreaBackground]
  refine ⟨hmarked, ?_, ?_⟩
  · intro t l
    cases blackAllocation <;>
      cases htm : tryMerge (labFromResult address size) st.lab <;>
        simp [EnsureLab, htm, closeAndMakeIterableEvents]
  · intro a ha
    rw [hmarked]
    cases blackAllocation
    · simp
    · rw [Finset.mem_Ico, not_and_or, not_le, not_lt] at ha
      simp only [if_true, Finset.mem_union, Finset.mem_Ico]
      constructor
      · rintro (h | ⟨h1, h2⟩)
        · exact h
        · rcases ha with ha | ha <;> omega
      · exact fun h => Or.inl h

/-- Witness for C10: address 5, outside the granted slice `[100, 108)`, keeps
its marking state across the replenishment. -/
theorem c10_witness :
    (5 ∈ (EnsureLab 7 true (some (100, 8)) AllocationOrigin.kRuntime
      ⟨⟨0, 0⟩, {5}⟩).2.1.marked) ↔ 5 ∈ ({5} : Finset Nat) :=
  (c10_ensure_lab_marking_frame 7 true 100 8 AllocationOrigin.kRuntime
    ⟨⟨0, 0⟩, {5}⟩).2.2 5 (by decide)

/-- C4: on a successful replenishment, if the previous LAB's free tail ends
exactly where the granted slice begins, the two merge into one LAB whose
capacity is the slice size plus the previous free tail, and the previous LAB
is not closed; otherwise the new LAB's capacity is exactly the slice size and
the previous LAB (when it has a non-empty tail) is closed and made
heap-iterable. -/
theorem c4_merge_on_replenish (localHeap : Nat) (blackAllocation : Bool)
    (address size : Nat) (origin : AllocationOrigin) (st : AllocatorState)
    (hvalid : labIsValid st.lab) :
    (st.lab.limit = address →
      (EnsureLab localHeap blackAllocation (some (address, size)) origin
        st).1 = true ∧
      labCapacity (EnsureLab localHeap blackAllocation (some (address, size))
        origin st).2.1.lab = size + labCapacity st.lab ∧
      (∀ t l, HeapEvent.closeAndMakeIterable t l ∉
        (EnsureLab localHeap blackAllocation (some (address, size)) origin
          st).2.2)) ∧
    (st.lab.limit ≠ address →
      (EnsureLab localHeap blackAllocation (some (address, size)) origin
        st).1 = true ∧
      labCapacity (EnsureLab localHeap blackAllocation (some (address, size))
        origin st).2.1.lab = size ∧
      (st.lab.top ≠ st.lab.limit →
        HeapEvent.closeAndMakeIterable st.lab.top st.lab.limit ∈
          (EnsureLab localHeap blackAllocation (some (address, size)) origin
            st).2.2)) := by
  obtain ⟨htop, hle⟩ := hvalid
  constructor
  · intro hcontig
    have htm : tryMerge (labFromResult address size) st.lab =
        some { top := st.lab.top, limit := address + size } := by
      simp [tryMerge, labFromResult, hcontig]
    have hlab : (EnsureLab localHeap blackAllocation (some (address, size))
        origin st).2.1.lab = { top := st.lab.top, limit := address + size }
        := by
      cases blackAllocation <;> simp [EnsureLab, htm]
    refine ⟨?_, ?_, ?_⟩
    · cases blackAllocation <;> simp [EnsureLab, htm]
    · rw [hlab]
      show address + size - st.lab.top = size + (st.lab.limit - st.lab.top)
      omega
    · intro t l
      cases blackAllocation <;> simp [EnsureLab, htm]
  · intro hncontig
    have htm : tryMerge (labFromResult address size) st.lab = none := by
      simp [tryMerge, labFromResult, hncontig]
    have htm2 : tryMerge { top := address, limit := address + size } st.lab
        = none := htm
    have hlab : (EnsureLab localHeap blackAllocation (some (address, size))
        origin st).2.1.lab = { top := address, limit := address + size } := by
      cases blackAllocation <;> simp [EnsureLab, htm, htm2, labFromResult]
    refine ⟨?_, ?_, ?_⟩
    · cases blackAllocation <;> simp [EnsureLab, htm]
    · rw [hlab]
      show address + size - address = size
      omega
    · intro hne
      cases blackAllocation <;>
        simp [EnsureLab, htm, closeAndMakeIterableEvents, htop, hne]

/-- Witness for C4: a previous LAB `[40, 100)` contiguous with the granted
slice `[100, 108)` merges into a LAB of capacity `8 + 60`. -/
theorem c4_witness :
    labCapacity (EnsureLab 7 false (some (100, 8)) AllocationOrigin.kRuntime
      ⟨⟨40, 100⟩, ∅⟩).2.1.lab = 8 + labCapacity ⟨40, 100⟩ :=
  ((c4_merge_on_replenish 7 false 100 8 AllocationOrigin.kRuntime
    ⟨⟨40, 100⟩, ∅⟩ (by decide)).1 rfl).2.1

/-- C6: whenever the shared space grants a slice (at a non-null address, to a
well-formed previous LAB), `EnsureLab` returns true, the LAB constructed from
the slice is valid (so the debug assertion `DCHECK(lab_.IsValid())` holds),
and the LAB installed after the optional merge is valid as well — `EnsureLab`
returns true only with a valid LAB in place. -/
theorem c6_ensure_lab_returns_valid (localHeap : Nat)
    (blackAllocation : Bool) (address size : Nat)
    (origin : AllocationOrigin) (st : AllocatorState)
    (haddr : address ≠ kNullAddress)
    (hle : st.lab.top ≤ st.lab.limit)
    (hempty : st.lab.top = kNullAddress → st.lab.limit = kNullAddress) :
    (EnsureLab localHeap blackAllocation (some (address, size)) origin st).1
      = true ∧
    labIsValid (labFromResult address size) ∧
    labIsValid (EnsureLab localHeap blackAllocation (some (address, size))
      origin st).2.1.lab := by
  refine ⟨?_, ⟨haddr, Nat.le_add_right _ _⟩, ?_⟩
  · cases htm : tryMerge (labFromResult address size) st.lab <;>
      simp [EnsureLab, htm]
  · by_cases hcontig : st.lab.limit = address
    · have htm : tryMerge (labFromResult address size) st.lab =
          some { top := st.lab.top, limit := address + size } := by
        simp [tryMerge, labFromResult, hcontig]
      have hlab : (EnsureLab localHeap blackAllocation (some (address, size))
          origin st).2.1.lab = { top := st.lab.top, limit := address + size }
          := by
        cases blackAllocation <;> simp [EnsureLab, htm]
      rw [hlab]
      have htopne : st.lab.top ≠ kNullAddress := by
        intro h
        exact haddr (hcontig ▸ hempty h)
      refine ⟨htopne, ?_⟩
      show st.lab.top ≤ address + size
      omega
    · have htm : tryMerge (labFromResult address size) st.lab = none := by
        simp [tryMerge, labFromResult, hcontig]
      have htm2 : tryMerge { top := address, limit := address + size } st.lab
          = none := htm
      have hlab : (EnsureLab localHeap blackAllocation (some (address, size))
          origin st).2.1.lab = { top := address, limit := address + size }
          := by
        cases blackAllocation <;> simp [EnsureLab, htm, htm2, labFromResult]
      rw [hlab]
      exact ⟨haddr, Nat.le_add_right _ _⟩

/-- Witness for C6: a slice granted at address 100 to an allocator with no
previous LAB yields a valid installed LAB. -/
theorem c6_witness :
    labIsValid (EnsureLab 7 false (some (100, 8)) AllocationOrigin.kRuntime
      ⟨⟨0, 0⟩, ∅⟩).2.1.lab :=
  (c6_ensure_lab_returns_valid 7 false 100 8 AllocationOrigin.kRuntime
    ⟨⟨0, 0⟩, ∅⟩ (by decide) (by decide) (fun h => h)).2.2

/-- C7: `AllocateOutsideLab` requests a slice with min = max = the object
size; a failed request yields `Retry` with the marking state untouched; a
granted request yields the slice's address, with exactly the returned region
of length `objectSize` marked black when black-allocation is active (marking
untouched otherwise). -/
theorem c7_allocate_outside_lab_exact (localHeap : Nat)
    (blackAllocation : Bool) (response : Option (Nat × Nat))
    (objectSize : Nat) (alignment : AllocationAlignment)
    (origin : AllocationOrigin) (marked : Finset Nat) :
    (AllocateOutsideLab localHeap blackAllocation response objectSize
      alignment origin marked).2.2.head? =
      some (HeapEvent.requestSlice localHeap objectSize objectSize alignment
        origin) ∧
    (response = none →
      (AllocateOutsideLab localHeap blackAllocation response objectSize
        alignment origin marked).1 = AllocationResult.retry ∧
      (AllocateOutsideLab localHeap blackAllocation response objectSize
        alignment origin marked).2.1 = marked) ∧
    (∀ address s, response = some (address, s) →
      (AllocateOutsideLab localHeap blackAllocation response objectSize
        alignment origin marked).1 = AllocationResult.success address ∧
      (AllocateOutsideLab localHeap blackAllocation response objectSize
        alignment origin marked).2.1 =
        (if blackAllocation then
          marked ∪ Finset.Ico address (address + objectSize)
        else marked)) := by
  refine ⟨?_, ?_, ?_⟩
  · cases response with
    | none => simp [AllocateOutsideLab]
    | some p => cases blackAllocation <;> simp [AllocateOutsideLab]
  · rintro rfl
    simp [AllocateOutsideLab]
  · rintro address s rfl
    cases blackAllocation <;> simp [AllocateOutsideLab, markBlackBackground]

/-- Witness for C7: a granted slice at address 200 for a 32-byte object
returns 200 with black-allocation active. -/
theorem c7_witness :
    (AllocateOutsideLab 7 true (some (200, 32)) 32
      AllocationAlignment.kWordAligned AllocationOrigin.kRuntime ∅).1 =
      AllocationResult.success 200 :=
  ((c7_allocate_outside_lab_exact 7 true (some (200, 32)) 32
    AllocationAlignment.kWordAligned AllocationOrigin.kRuntime ∅).2.2
    200 32 rfl).1

/-- C5 counterexample: a LAB-replenishing allocation request with double-word
alignment still makes `EnsureLab` request the slice with word alignment — the
slice request does not use the triggering request's alignment (the source
passes the constant `kWordAligned`, line 115). -/
theorem c5_counterexample :
    (AllocateInLabSlow 7 false (some (64, 4096)) 16
      AllocationAlignment.kDoubleAligned AllocationOrigin.kRuntime
      ⟨⟨0, 0⟩, ∅⟩).2.2 =
      [HeapEvent.requestSlice 7 kLabSize kMaxLabSize
        AllocationAlignment.kWordAligned AllocationOrigin.kRuntime] ∧
    AllocationAlignment.kWordAligned ≠ AllocationAlignment.kDoubleAligned :=
  ⟨by decide, by decide⟩

/-- C5 amended: for every allocation request that triggers LAB replenishment,
the slice request to the shared space uses the minimum and maximum LAB
capacities, passes the given origin, targets the owning thread context, and
is always made with word alignment (`kWordAligned`), regardless of the
triggering request's alignment. -/
theorem c5_request_uses_word_alignment (localHeap : Nat)
    (blackAllocation : Bool) (response : Option (Nat × Nat))
    (objectSize : Nat) (alignment : AllocationAlignment)
    (origin : AllocationOrigin) (st : AllocatorState) :
    kLabSize ≤ kMaxLabSize ∧
    (AllocateInLabSlow localHeap blackAllocation response objectSize
      alignment origin st).2.2.head? =
      some (HeapEvent.requestSlice localHeap kLabSize kMaxLabSize
        AllocationAlignment.kWordAligned origin) := by
  refine ⟨by decide, ?_⟩
  cases response with
  | none => simp [AllocateInLabSlow, EnsureLab]
  | some p =>
    rcases p with ⟨address, size⟩
    cases htm : tryMerge (labFromResult address size) st.lab <;>
      cases blackAllocation <;>
        simp [AllocateInLabSlow, EnsureLab, htm]

/-- Witness for C5 (amended): the concrete double-aligned triggering request
produces a word-aligned slice request. -/
theorem c5_witness :
    (AllocateInLabSlow 7 false (some (64, 4096)) 16
      AllocationAlignment.kDoubleAligned AllocationOrigin.kRuntime
      ⟨⟨0, 0⟩, ∅⟩).2.2.head? =
      some (HeapEvent.requestSlice 7 kLabSize kMaxLabSize
        AllocationAlignment.kWordAligned AllocationOrigin.kRuntime) :=
  (c5_request_uses_word_alignment 7 false (some (64, 4096)) 16
    AllocationAlignment.kDoubleAligned AllocationOrigin.kRuntime
    ⟨⟨0, 0⟩, ∅⟩).2

end V8Embed
